import Mathlib

/-!
Shallow embedding of the solana-ai-agent-mvp orchestration core.

Sources embedded:
- `src/wallet.js`  (Wallet.getTokenBalance)
- `src/swap.js`    (TOKENS, Swapper.resolveMint, getQuote, swap, getPrice)
- `src/transfer.js` (Transfer.sendSol, Transfer.sendToken)
- `src/stake.js`   (VALIDATORS, Staking.resolveValidator, stake,
                    getStakeAccounts, withdraw)
- `src/integrations/agentdex.ts` (AgentDEXClient.request)

Modelling conventions:
- JS numbers carrying decimal asset amounts are embedded as `ℚ`;
  integer base-unit amounts as `ℕ` or `ℤ`.  `Math.floor` is `Int.floor`.
- Remote collaborators (RPC node, HTTP fetch, key generation) are passed in
  as explicit dependency records or oracle functions; each orchestrator
  returns the instruction list it would submit together with its result
  record, or an error through `Except`.
- A thrown JS `Error` is a `JsError` (its `name` drives the catch logic) or,
  where the code only ever throws fresh `Error(message)`s, just the message
  string.
- JS string truthiness: a string is falsy exactly when it is empty.
-/

/-- A JS error value as observed by `catch` blocks: its `name` and message. -/
structure JsError where
  name : String
  message : String
deriving DecidableEq

/-- JS `String.prototype.toUpperCase` on the ASCII strings used by the code. -/
def jsToUpper (s : String) : String := String.mk (s.data.map Char.toUpper)

/-- JS `String.prototype.toLowerCase` on the ASCII strings used by the code. -/
def jsToLower (s : String) : String := String.mk (s.data.map Char.toLower)

/-- JS `x || null` for a string `x`: `null` exactly on falsy (empty) `x`. -/
def jsStringOrNull (s : String) : Option String := if s = "" then none else some s

/-- `TOKENS` table from `src/swap.js` (symbol → mint address). -/
def TOKENS : List (String × String) :=
  [("SOL", "So11111111111111111111111111111111111111112"),
   ("USDC", "EPjFWdd5AufqSSqeM2qN1xzybapC8G4wEGGkZwyTDt1v"),
   ("USDT", "Es9vMFrzaCERmJfrF4H2FYD4KCoNkY11McCe8BenwNYB"),
   ("BONK", "DezXAZ8z7PnrnRJjz3wXBoRgixCa6xjnB7YaB1pPB263"),
   ("JUP", "JUPyiwrYJFskUPiHa7hkeR8VUtAeFoSYbKedZNsDvCN"),
   ("WIF", "EKpQGSJtjMFqKZ9KQanSqYXRcF8fBopzLHYxdM65zcjm"),
   ("PYTH", "HZ1JovNiVvGrGNiiYvEozEVgZ58xaU3RKwX8eACQBCt3")]

/-- `TOKENS.SOL` as referenced by `getPrice` in `src/swap.js`. -/
def TOKENS.SOL : String := "So11111111111111111111111111111111111111112"

/-- `TOKENS.USDC`. -/
def TOKENS.USDC : String := "EPjFWdd5AufqSSqeM2qN1xzybapC8G4wEGGkZwyTDt1v"

/-- `VALIDATORS` table from `src/stake.js` (name → vote account address). -/
def VALIDATORS : List (String × String) :=
  [("jito", "J1to1yufRnoWn81KYg1XkTWzmKjnYSnmE2VY8DGUJ9Qv"),
   ("marinade", "mrgn28BhocwdAUEenen3Sw2MR9cPKDpLkDvzDdR7DBD"),
   ("solflare", "SoLFLaReRVNagJzYYGppSkqzkhmHZ5ZR8EUpzqLEAaL"),
   ("everstake", "EverSFw9uN5t1V8kS3ficHUcKffSjwpGzUSGd7mgmSks")]

/-- `Swapper.resolveMint` (src/swap.js 29-35): case-insensitive table lookup,
falling back to the input string.  `TOKENS[key]` is truthy iff the key is
present, since every table value is a nonempty string. -/
def Swapper.resolveMint (tokenOrMint : String) : String :=
  match TOKENS.lookup (jsToUpper tokenOrMint) with
  | some addr => addr
  | none => tokenOrMint

/-- `Staking.resolveValidator` (src/stake.js 33-38). -/
def Staking.resolveValidator (validatorOrAddress : String) : String :=
  match VALIDATORS.lookup (jsToLower validatorOrAddress) with
  | some addr => addr
  | none => validatorOrAddress

/-- `LAMPORTS_PER_SOL` from `@solana/web3.js`. -/
def LAMPORTS_PER_SOL : ℕ := 1000000000

/-- `Math.floor(amountSol * LAMPORTS_PER_SOL)` as used by `sendSol`
(src/transfer.js 32) and `stake` (src/stake.js 45). -/
def toBaseUnits (amountSol : ℚ) : ℤ := ⌊amountSol * (LAMPORTS_PER_SOL : ℚ)⌋

/-- The on-chain instructions this code builds, by SDK constructor. -/
inductive Instruction where
  | systemTransfer (fromPubkey toPubkey : String) (lamports : ℤ)
  | createAssociatedTokenAccount (payer ata owner mint : String)
  | tokenTransfer (source dest owner : String) (amount : ℕ)
  | stakeCreateAccount (fromPubkey stakePubkey staker withdrawer custodian : String) (lamports : ℤ)
  | stakeDelegate (stakePubkey authorizedPubkey votePubkey : String)
  | stakeDeactivate (stakePubkey authorizedPubkey : String)
  | stakeWithdraw (stakePubkey authorizedPubkey toPubkey : String) (lamports : ℕ)
deriving DecidableEq

/-- The wallet handle: `wallet.keypair.publicKey` and `wallet.address` are
the same base58 string. -/
structure WalletH where
  publicKey : String
deriving DecidableEq

/-! ## Transfer module (src/transfer.js) -/

/-- Remote collaborators of `sendSol`: the submission only yields a signature. -/
structure SolDeps where
  signature : String
deriving DecidableEq

/-- Result record of `sendSol` (`from` is a Lean keyword, hence `fromAddr`). -/
structure SolTransferResult where
  signature : String
  fromAddr : String
  toAddr : String
  amount : ℚ
  unit : String
  explorerUrl : String
deriving DecidableEq

/-- `Transfer.sendSol` (src/transfer.js 30-56): one system-transfer
instruction for `Math.floor(amountSol * LAMPORTS_PER_SOL)` lamports. -/
def Transfer.sendSol (deps : SolDeps) (wallet : WalletH) (toAddress : String)
    (amountSol : ℚ) : List Instruction × SolTransferResult :=
  let lamports := toBaseUnits amountSol
  ([Instruction.systemTransfer wallet.publicKey toAddress lamports],
   { signature := deps.signature
     fromAddr := wallet.publicKey
     toAddr := toAddress
     amount := amountSol
     unit := "SOL"
     explorerUrl := "https://solscan.io/tx/" ++ deps.signature })

/-- Remote collaborators of `sendToken`: `getAssociatedTokenAddress`
(a pure address derivation, keyed by mint and owner), the `getAccount`
existence check (keyed by the ATA address; throws a `JsError` on failure),
and the submission signature. -/
structure TokenDeps where
  ataOf : String → String → String
  getAccount : String → Except JsError Unit
  signature : String

/-- Result record of `sendToken` (src/transfer.js 113-120). -/
structure TokenTransferResult where
  signature : String
  fromAddr : String
  toAddr : String
  amount : String
  mint : String
  explorerUrl : String
deriving DecidableEq

/-- The result record `sendToken` returns on success (factored out so that
theorems can name it). -/
def Transfer.tokenResult (deps : TokenDeps) (wallet : WalletH)
    (toAddress : String) (amount : ℕ) (mintAddress : String) : TokenTransferResult :=
  { signature := deps.signature
    fromAddr := wallet.publicKey
    toAddr := toAddress
    amount := toString amount
    mint := mintAddress
    explorerUrl := "https://solscan.io/tx/" ++ deps.signature }

/-- `Transfer.sendToken` (src/transfer.js 61-121): derives source and
destination ATAs; checks the destination account, on a
`TokenAccountNotFoundError` prepends a create-ATA instruction, on any other
error re-raises it (aborting before the transfer instruction); then appends
the token-transfer instruction and submits the batch. -/
def Transfer.sendToken (deps : TokenDeps) (wallet : WalletH) (toAddress : String)
    (amount : ℕ) (mintAddress : String) :
    Except JsError (List Instruction × TokenTransferResult) :=
  let sourceAta := deps.ataOf mintAddress wallet.publicKey
  let destAta := deps.ataOf mintAddress toAddress
  let createInstructions : Except JsError (List Instruction) :=
    match deps.getAccount destAta with
    | Except.ok _ => Except.ok []
    | Except.error e =>
        if e.name = "TokenAccountNotFoundError" then
          Except.ok [Instruction.createAssociatedTokenAccount
            wallet.publicKey destAta toAddress mintAddress]
        else
          Except.error e
  match createInstructions with
  | Except.error e => Except.error e
  | Except.ok pre =>
      Except.ok
        (pre ++ [Instruction.tokenTransfer sourceAta destAta wallet.publicKey amount],
         Transfer.tokenResult deps wallet toAddress amount mintAddress)

/-! ## Staking module (src/stake.js) -/

/-- Remote collaborators of `stake`: the fresh stake-account keypair
(`Keypair.generate()`), the rent-exemption minimum returned by
`getMinimumBalanceForRentExemption(StakeProgram.space)`, and the signature. -/
structure StakeDeps where
  newStakeAccount : String
  rentExemption : ℕ
  signature : String
deriving DecidableEq

/-- Result record of `stake` (src/stake.js 87-93). -/
structure StakeResult where
  signature : String
  stakeAccount : String
  validator : String
  amount : ℚ
  explorerUrl : String
deriving DecidableEq

/-- `Staking.stake` (src/stake.js 43-94): resolves the validator, converts
the requested SOL amount, funds the new stake account with
`lamports + rentExemption`, and batches create-account and delegate
instructions into one transaction. -/
def Staking.stake (deps : StakeDeps) (wallet : WalletH)
    (validatorVoteAccount : String) (amountSol : ℚ) :
    List Instruction × StakeResult :=
  let voteAccount := Staking.resolveValidator validatorVoteAccount
  let lamports := toBaseUnits amountSol
  let totalLamports := lamports + (deps.rentExemption : ℤ)
  ([Instruction.stakeCreateAccount wallet.publicKey deps.newStakeAccount
      wallet.publicKey wallet.publicKey wallet.publicKey totalLamports,
    Instruction.stakeDelegate deps.newStakeAccount wallet.publicKey voteAccount],
   { signature := deps.signature
     stakeAccount := deps.newStakeAccount
     validator := voteAccount
     amount := amountSol
     explorerUrl := "https://solscan.io/tx/" ++ deps.signature })

/-- `data.stake.delegation` sub-record of a parsed stake account. -/
structure ParsedDelegation where
  voter : String
  activationEpoch : String
deriving DecidableEq

/-- `data.stake` sub-record; `delegation` may be absent. -/
structure ParsedStake where
  delegation : Option ParsedDelegation
deriving DecidableEq

/-- `account.data.parsed.info`; `stake` may be absent. -/
structure ParsedStakeInfo where
  stake : Option ParsedStake
deriving DecidableEq

/-- One account as returned by `getParsedProgramAccounts`. -/
structure RawStakeAccount where
  pubkey : String
  lamports : ℕ
  info : ParsedStakeInfo
deriving DecidableEq

/-- Summary record built by `getStakeAccounts` (src/stake.js 116-123). -/
structure StakeAccountSummary where
  address : String
  lamports : ℕ
  sol : ℚ
  state : String
  validator : Option String
  activationEpoch : Option String
deriving DecidableEq

/-- The mapper inside `getStakeAccounts` (src/stake.js 114-124):
`data.stake?.delegation` is the optional-chained delegation;
`x ? 'delegated' : 'inactive'` tests its presence (a present delegation
object is always truthy); `... || null` on the string fields maps falsy
(absent or empty) values to null. -/
def Staking.summarize (acc : RawStakeAccount) : StakeAccountSummary :=
  let delegation := acc.info.stake.bind ParsedStake.delegation
  { address := acc.pubkey
    lamports := acc.lamports
    sol := (acc.lamports : ℚ) / (LAMPORTS_PER_SOL : ℚ)
    state := if delegation.isSome then "delegated" else "inactive"
    validator :=
      match delegation with
      | some d => jsStringOrNull d.voter
      | none => none
    activationEpoch :=
      match delegation with
      | some d => jsStringOrNull d.activationEpoch
      | none => none }

/-- `Staking.getStakeAccounts` (src/stake.js 99-125), applied to the list of
accounts the filtered program scan returned. -/
def Staking.getStakeAccounts (accounts : List RawStakeAccount) :
    List StakeAccountSummary :=
  accounts.map Staking.summarize

/-- Remote collaborators of `withdraw`: the balance read by
`connection.getBalance(stakeAccount)` and the submission signature. -/
structure WithdrawDeps where
  stakeBalance : ℕ
  signature : String
deriving DecidableEq

/-- Result record of `withdraw` (src/stake.js 178-183). -/
structure WithdrawResult where
  signature : String
  stakeAccount : String
  withdrawn : ℚ
  explorerUrl : String
deriving DecidableEq

/-- `Staking.withdraw` (src/stake.js 158-184): reads the current balance,
builds a single withdraw instruction for that whole balance, and reports
the withdrawn amount in SOL. -/
def Staking.withdraw (deps : WithdrawDeps) (wallet : WalletH)
    (stakeAccountAddress : String) : List Instruction × WithdrawResult :=
  ([Instruction.stakeWithdraw stakeAccountAddress wallet.publicKey
      wallet.publicKey deps.stakeBalance],
   { signature := deps.signature
     stakeAccount := stakeAccountAddress
     withdrawn := (deps.stakeBalance : ℚ) / (LAMPORTS_PER_SOL : ℚ)
     explorerUrl := "https://solscan.io/tx/" ++ deps.signature })

/-! ## Swap module (src/swap.js) -/

/-- The query parameters `getQuote` sends to the quote endpoint. -/
structure QuoteRequest where
  inputMint : String
  outputMint : String
  amount : ℕ
  slippageBps : ℕ
deriving DecidableEq

/-- The JSON payload of a quote response (numeric fields as values). -/
structure QuoteRaw where
  inAmount : ℚ
  outAmount : ℚ
  priceImpactPct : ℚ
deriving DecidableEq

/-- An HTTP response as the code observes it: `status`, `text()` for error
wrapping, and the parsed JSON body used on success. -/
structure HttpResponse where
  status : ℕ
  text : String
  quote : QuoteRaw
deriving DecidableEq

/-- fetch `Response.ok`: status in the inclusive range 200-299. -/
def HttpResponse.ok (r : HttpResponse) : Bool :=
  decide (200 ≤ r.status) && decide (r.status < 300)

/-- The record `getQuote` returns (src/swap.js 58-66). -/
structure QuoteRecord where
  inputMint : String
  outputMint : String
  inAmount : ℚ
  outAmount : ℚ
  priceImpactPct : ℚ
  raw : QuoteRaw
deriving DecidableEq

/-- The request `getQuote` builds from the already-resolved mints
(src/swap.js 44-49). -/
def Swapper.quoteRequest (inputMintAddr outputMintAddr : String)
    (amount slippageBps : ℕ) : QuoteRequest :=
  { inputMint := inputMintAddr
    outputMint := outputMintAddr
    amount := amount
    slippageBps := slippageBps }

/-- `Swapper.getQuote` (src/swap.js 40-67): resolves both mints, issues the
quote request, throws `Quote failed: <body text>` on a non-ok response,
otherwise returns the QuoteRecord carrying the raw payload. -/
def Swapper.getQuote (fetchQuote : QuoteRequest → HttpResponse)
    (inputMint outputMint : String) (amount slippageBps : ℕ) :
    Except String QuoteRecord :=
  let inputMintAddr := Swapper.resolveMint inputMint
  let outputMintAddr := Swapper.resolveMint outputMint
  let response := fetchQuote
    (Swapper.quoteRequest inputMintAddr outputMintAddr amount slippageBps)
  if response.ok then
    let quote := response.quote
    Except.ok
      { inputMint := inputMintAddr
        outputMint := outputMintAddr
        inAmount := quote.inAmount
        outAmount := quote.outAmount
        priceImpactPct := quote.priceImpactPct
        raw := quote }
  else
    Except.error ("Quote failed: " ++ response.text)

/-- The JSON body `swap` POSTs to the swap-build endpoint (src/swap.js 80-84). -/
structure SwapBuildRequest where
  quoteResponse : QuoteRaw
  userPublicKey : String
  wrapAndUnwrapSol : Bool
deriving DecidableEq

/-- The swap-build HTTP response: status, `text()`, and the base64 payload. -/
structure SwapBuildResponse where
  status : ℕ
  text : String
  swapTransaction : String
deriving DecidableEq

/-- fetch `Response.ok` for the swap-build response. -/
def SwapBuildResponse.ok (r : SwapBuildResponse) : Bool :=
  decide (200 ≤ r.status) && decide (r.status < 300)

/-- `confirmTransaction(...).value`: `err` is present on an on-chain error
(embedded here as its JSON rendering). -/
structure Confirmation where
  err : Option String
deriving DecidableEq

/-- Remote collaborators of `swap`. -/
structure SwapDeps where
  fetchQuote : QuoteRequest → HttpResponse
  fetchSwap : SwapBuildRequest → SwapBuildResponse
  sendSignature : String
  confirmation : Confirmation

/-- Result record of `swap` (src/swap.js 112-119). -/
structure SwapResult where
  signature : String
  inputMint : String
  outputMint : String
  inAmount : ℚ
  outAmount : ℚ
  explorerUrl : String
deriving DecidableEq

/-- `Swapper.swap` (src/swap.js 72-120): quote, swap-build POST (throwing
`Swap transaction failed: <body text>` on non-ok), sign-and-send, then
confirmation (throwing `Transaction failed: <err>` on an on-chain error). -/
def Swapper.swap (deps : SwapDeps) (wallet : WalletH)
    (inputMint outputMint : String) (amount slippageBps : ℕ) :
    Except String SwapResult :=
  match Swapper.getQuote deps.fetchQuote inputMint outputMint amount slippageBps with
  | Except.error e => Except.error e
  | Except.ok quote =>
      let swapResponse := deps.fetchSwap
        { quoteResponse := quote.raw
          userPublicKey := wallet.publicKey
          wrapAndUnwrapSol := true }
      if swapResponse.ok then
        match deps.confirmation.err with
        | some err => Except.error ("Transaction failed: " ++ err)
        | none =>
            Except.ok
              { signature := deps.sendSignature
                inputMint := quote.inputMint
                outputMint := quote.outputMint
                inAmount := quote.inAmount
                outAmount := quote.outAmount
                explorerUrl := "https://solscan.io/tx/" ++ deps.sendSignature }
      else
        Except.error ("Swap transaction failed: " ++ swapResponse.text)

/-- `Swapper.getPrice` (src/swap.js 125-139): quotes
`10^(mint === TOKENS.SOL ? 9 : 6)` base units of the resolved mint against
USDC and divides the quoted output amount by the constant 1e6. -/
def Swapper.getPrice (fetchQuote : QuoteRequest → HttpResponse)
    (tokenMint : String) : Except String ℚ :=
  let mint := Swapper.resolveMint tokenMint
  let decimals : ℕ := if mint = TOKENS.SOL then 9 else 6
  let amount : ℕ := 10 ^ decimals
  match Swapper.getQuote fetchQuote mint "USDC" amount 50 with
  | Except.ok quote => Except.ok (quote.outAmount / 1000000)
  | Except.error e =>
      Except.error ("Could not get price for " ++ tokenMint ++ ": " ++ e)

/-- The quote request `getPrice fetch tokenMint` issues (established by the
C7 theorem below). -/
def Swapper.priceQuoteRequest (tokenMint : String) : QuoteRequest :=
  { inputMint := Swapper.resolveMint tokenMint
    outputMint := TOKENS.USDC
    amount := if Swapper.resolveMint tokenMint = TOKENS.SOL then 10 ^ 9 else 10 ^ 6
    slippageBps := 50 }

/-! ## AgentDEX client (src/integrations/agentdex.ts) -/

/-- An AgentDEX HTTP response: status, `text()`, and the opaque JSON payload
returned on success. -/
structure AgentHttpResponse where
  status : ℕ
  text : String
  json : String
deriving DecidableEq

/-- fetch `Response.ok` for the AgentDEX response. -/
def AgentHttpResponse.ok (r : AgentHttpResponse) : Bool :=
  decide (200 ≤ r.status) && decide (r.status < 300)

/-- `AgentDEXClient.request` (agentdex.ts 107-131): on a non-ok response,
throws an error carrying the method, path, status code, and body text;
otherwise returns the parsed payload. -/
def AgentDEXClient.request (method path : String) (res : AgentHttpResponse) :
    Except String String :=
  if res.ok then
    Except.ok res.json
  else
    Except.error
      ("AgentDEX API " ++ method ++ " " ++ path ++ " failed (" ++
        toString res.status ++ "): " ++ res.text)

/-! ## Wallet module (src/wallet.js) -/

/-- A token account as returned by `getAccount`: `amount` is the raw
base-unit balance (a u64 BigInt in the SDK). -/
structure TokenAccount where
  amount : ℕ
deriving DecidableEq

/-- `Wallet.getTokenBalance` (src/wallet.js 78-90), as a function of the
outcome of the ATA lookup in its `try` block: a
`TokenAccountNotFoundError` is converted to a 0 balance, any other error is
re-raised, and an existing account yields its raw amount. -/
def Wallet.getTokenBalance (lookupResult : Except JsError TokenAccount) :
    Except JsError ℕ :=
  match lookupResult with
  | Except.ok account => Except.ok account.amount
  | Except.error e =>
      if e.name = "TokenAccountNotFoundError" then Except.ok 0
      else Except.error e

/-! ## Substring test (used to state the error-wrapping claims) -/

/-- Whether `needle` occurs contiguously inside `hay`. -/
def listContainsSub (needle hay : List Char) : Bool :=
  (List.range (hay.length + 1)).any fun i =>
    ((hay.drop i).take needle.length) == needle

/-- Whether the string `needle` occurs inside the string `hay`. -/
def strContains (hay needle : String) : Bool :=
  listContainsSub needle.data hay.data

/-! ## Shared lemmas -/

/-- A successful lookup in an association list comes from a member pair. -/
theorem lookup_mem {k v : String} :
    ∀ (l : List (String × String)), l.lookup k = some v → (k, v) ∈ l := by
  intro l
  induction l with
  | nil => intro h; exact absurd h (by simp [List.lookup])
  | cons p t ih =>
      intro h
      obtain ⟨a, b⟩ := p
      by_cases hk : k = a
      · subst hk
        simp [List.lookup] at h
        simp [h]
      · have hne : (k == a) = false := beq_false_of_ne hk
        rw [List.lookup, hne] at h
        exact List.mem_cons_of_mem _ (ih h)

/-- Every address in the token table resolves to itself. -/
theorem TOKENS_values_fixed : ∀ p ∈ TOKENS, Swapper.resolveMint p.2 = p.2 := by
  decide

/-- Every address in the validator table resolves to itself. -/
theorem VALIDATORS_values_fixed :
    ∀ p ∈ VALIDATORS, Staking.resolveValidator p.2 = p.2 := by
  decide

/-- `resolveMint` is idempotent on every string. -/
theorem resolveMint_idem (s : String) :
    Swapper.resolveMint (Swapper.resolveMint s) = Swapper.resolveMint s := by
  cases h : TOKENS.lookup (jsToUpper s) with
  | none =>
      have hs : Swapper.resolveMint s = s := by
        simp [Swapper.resolveMint, h]
      rw [hs]
      exact hs
  | some a =>
      have hs : Swapper.resolveMint s = a := by
        simp [Swapper.resolveMint, h]
      rw [hs]
      exact TOKENS_values_fixed _ (lookup_mem _ h)

/-- `resolveValidator` is idempotent on every string. -/
theorem resolveValidator_idem (s : String) :
    Staking.resolveValidator (Staking.resolveValidator s) =
      Staking.resolveValidator s := by
  cases h : VALIDATORS.lookup (jsToLower s) with
  | none =>
      have hs : Staking.resolveValidator s = s := by
        simp [Staking.resolveValidator, h]
      rw [hs]
      exact hs
  | some a =>
      have hs : Staking.resolveValidator s = a := by
        simp [Staking.resolveValidator, h]
      rw [hs]
      exact VALIDATORS_values_fixed _ (lookup_mem _ h)

/-- A table hit, up to casing, resolves to the mapped address. -/
theorem resolveMint_hit (s k a : String) (hm : (k, a) ∈ TOKENS)
    (hu : jsToUpper s = k) : Swapper.resolveMint s = a := by
  fin_cases hm <;> simp_all [Swapper.resolveMint, TOKENS, List.lookup]

/-- A table miss leaves the input unchanged. -/
theorem resolveMint_miss (s : String) (h : TOKENS.lookup (jsToUpper s) = none) :
    Swapper.resolveMint s = s := by
  simp [Swapper.resolveMint, h]

/-- A validator-table hit, up to casing, resolves to the mapped address. -/
theorem resolveValidator_hit (s k a : String) (hm : (k, a) ∈ VALIDATORS)
    (hu : jsToLower s = k) : Staking.resolveValidator s = a := by
  fin_cases hm <;> simp_all [Staking.resolveValidator, VALIDATORS, List.lookup]

/-- A validator-table miss leaves the input unchanged. -/
theorem resolveValidator_miss (s : String)
    (h : VALIDATORS.lookup (jsToLower s) = none) :
    Staking.resolveValidator s = s := by
  simp [Staking.resolveValidator, h]

/-! ## Claim theorems -/

/-- C3 (confirmed): both alias resolvers look their argument up
case-insensitively in their fixed static table (the token resolver by
upper-casing against upper-case keys, the validator resolver by
lower-casing against lower-case keys), return the mapped canonical address
on a table hit, return the input unchanged on a miss, and are idempotent on
every string. -/
theorem C3_alias_resolution :
    (∀ s k a, (k, a) ∈ TOKENS → jsToUpper s = k → Swapper.resolveMint s = a) ∧
    (∀ s, TOKENS.lookup (jsToUpper s) = none → Swapper.resolveMint s = s) ∧
    (∀ s, Swapper.resolveMint (Swapper.resolveMint s) = Swapper.resolveMint s) ∧
    (∀ s k a, (k, a) ∈ VALIDATORS → jsToLower s = k →
      Staking.resolveValidator s = a) ∧
    (∀ s, VALIDATORS.lookup (jsToLower s) = none →
      Staking.resolveValidator s = s) ∧
    (∀ s, Staking.resolveValidator (Staking.resolveValidator s) =
      Staking.resolveValidator s) :=
  ⟨resolveMint_hit, resolveMint_miss, resolveMint_idem,
   resolveValidator_hit, resolveValidator_miss, resolveValidator_idem⟩

/-- Witness for C3 at concrete inputs: a lower-case table symbol, a
non-table string, and idempotence at a mixed-case symbol, for both tables. -/
theorem C3_alias_resolution_witness :
    Swapper.resolveMint "sol" = "So11111111111111111111111111111111111111112" ∧
    Swapper.resolveMint "NotInTheTable" = "NotInTheTable" ∧
    Swapper.resolveMint (Swapper.resolveMint "Sol") = Swapper.resolveMint "Sol" ∧
    Staking.resolveValidator "JITO" = "J1to1yufRnoWn81KYg1XkTWzmKjnYSnmE2VY8DGUJ9Qv" ∧
    Staking.resolveValidator "SomeVoteAddr" = "SomeVoteAddr" ∧
    Staking.resolveValidator (Staking.resolveValidator "Jito") =
      Staking.resolveValidator "Jito" :=
  ⟨C3_alias_resolution.1 "sol" "SOL"
      "So11111111111111111111111111111111111111112" (by decide) (by decide),
   C3_alias_resolution.2.1 "NotInTheTable" (by decide),
   C3_alias_resolution.2.2.1 "Sol",
   C3_alias_resolution.2.2.2.1 "JITO" "jito"
      "J1to1yufRnoWn81KYg1XkTWzmKjnYSnmE2VY8DGUJ9Qv" (by decide) (by decide),
   C3_alias_resolution.2.2.2.2.1 "SomeVoteAddr" (by decide),
   C3_alias_resolution.2.2.2.2.2 "Jito"⟩

/-- C2 (confirmed): the balance funding the new stake account is exactly
`Math.floor(amountSol * 1e9) + rentExemption`, with no other term. -/
theorem C2_stake_funded_balance (deps : StakeDeps) (wallet : WalletH)
    (validatorVoteAccount : String) (amountSol : ℚ) :
    (Staking.stake deps wallet validatorVoteAccount amountSol).1 =
      [Instruction.stakeCreateAccount wallet.publicKey deps.newStakeAccount
        wallet.publicKey wallet.publicKey wallet.publicKey
        (⌊amountSol * 1000000000⌋ + (deps.rentExemption : ℤ)),
       Instruction.stakeDelegate deps.newStakeAccount wallet.publicKey
        (Staking.resolveValidator validatorVoteAccount)] := by
  norm_num [Staking.stake, toBaseUnits, LAMPORTS_PER_SOL]

/-- C5 (confirmed): `withdraw` builds its single withdraw instruction for
exactly the lamport balance read from the stake account immediately before
submission, and reports that same balance in SOL (balance / 1e9). -/
theorem C5_withdraw_prior_balance (deps : WithdrawDeps) (wallet : WalletH)
    (stakeAccountAddress : String) :
    (Staking.withdraw deps wallet stakeAccountAddress).1 =
      [Instruction.stakeWithdraw stakeAccountAddress wallet.publicKey
        wallet.publicKey deps.stakeBalance] ∧
    (Staking.withdraw deps wallet stakeAccountAddress).2.withdrawn =
      (deps.stakeBalance : ℚ) / 1000000000 := by
  refine ⟨rfl, ?_⟩
  norm_num [Staking.withdraw, LAMPORTS_PER_SOL]

/-- C6 (confirmed): decimal-to-base-unit conversion in `sendSol` and
`stake` truncates (floor) rather than rounds; in particular
`1.999999999 + 1e-10` converts to 1999999999 lamports, never 2000000000. -/
theorem C6_truncating_base_unit_conversion :
    (∀ (deps : SolDeps) (wallet : WalletH) (toAddress : String) (amountSol : ℚ),
       (Transfer.sendSol deps wallet toAddress amountSol).1 =
         [Instruction.systemTransfer wallet.publicKey toAddress
           ⌊amountSol * 1000000000⌋]) ∧
    (∀ (deps : StakeDeps) (wallet : WalletH) (v : String) (amountSol : ℚ),
       ((Staking.stake deps wallet v amountSol).1).head? =
         some (Instruction.stakeCreateAccount wallet.publicKey
           deps.newStakeAccount wallet.publicKey wallet.publicKey
           wallet.publicKey
           (⌊amountSol * 1000000000⌋ + (deps.rentExemption : ℤ)))) ∧
    toBaseUnits (1.999999999 + 1e-10) = 1999999999 ∧
    toBaseUnits (1.999999999 + 1e-10) ≠ 2000000000 := by
  refine ⟨?_, ?_, ?_, ?_⟩
  · intro deps wallet toAddress amountSol
    norm_num [Transfer.sendSol, toBaseUnits, LAMPORTS_PER_SOL]
  · intro deps wallet v amountSol
    norm_num [Staking.stake, toBaseUnits, LAMPORTS_PER_SOL]
  · norm_num [toBaseUnits, LAMPORTS_PER_SOL]
  · norm_num [toBaseUnits, LAMPORTS_PER_SOL]

/-- C1 (confirmed): `sendToken` adds a create-ATA instruction exactly when
the destination existence check fails with a `TokenAccountNotFoundError`;
when the account exists only the transfer instruction is submitted; every
other existence-check error is re-raised unchanged and the call aborts
before any transfer instruction is built or submitted. -/
theorem C1_sendToken_create_iff_not_found (deps : TokenDeps) (wallet : WalletH)
    (toAddress : String) (amount : ℕ) (mintAddress : String) :
    (deps.getAccount (deps.ataOf mintAddress toAddress) = Except.ok () →
       Transfer.sendToken deps wallet toAddress amount mintAddress =
         Except.ok
           ([Instruction.tokenTransfer (deps.ataOf mintAddress wallet.publicKey)
               (deps.ataOf mintAddress toAddress) wallet.publicKey amount],
            Transfer.tokenResult deps wallet toAddress amount mintAddress)) ∧
    (∀ e, deps.getAccount (deps.ataOf mintAddress toAddress) = Except.error e →
       e.name = "TokenAccountNotFoundError" →
       Transfer.sendToken deps wallet toAddress amount mintAddress =
         Except.ok
           ([Instruction.createAssociatedTokenAccount wallet.publicKey
               (deps.ataOf mintAddress toAddress) toAddress mintAddress,
             Instruction.tokenTransfer (deps.ataOf mintAddress wallet.publicKey)
               (deps.ataOf mintAddress toAddress) wallet.publicKey amount],
            Transfer.tokenResult deps wallet toAddress amount mintAddress)) ∧
    (∀ e, deps.getAccount (deps.ataOf mintAddress toAddress) = Except.error e →
       e.name ≠ "TokenAccountNotFoundError" →
       Transfer.sendToken deps wallet toAddress amount mintAddress =
         Except.error e) := by
  refine ⟨?_, ?_, ?_⟩
  · intro h
    simp [Transfer.sendToken, h]
  · intro e h hname
    simp [Transfer.sendToken, h, hname]
  · intro e h hname
    simp [Transfer.sendToken, h, hname]

/-- Destination account exists (C1 witness dependencies). -/
def C1depsFound : TokenDeps :=
  { ataOf := fun mint owner => "ata-" ++ mint ++ "-" ++ owner
    getAccount := fun _ => Except.ok ()
    signature := "sigC1a" }

/-- Destination account missing (C1 witness dependencies). -/
def C1depsMissing : TokenDeps :=
  { ataOf := fun mint owner => "ata-" ++ mint ++ "-" ++ owner
    getAccount := fun _ =>
      Except.error { name := "TokenAccountNotFoundError", message := "missing" }
    signature := "sigC1b" }

/-- Existence check fails with an unrelated error (C1 witness dependencies). -/
def C1depsBroken : TokenDeps :=
  { ataOf := fun mint owner => "ata-" ++ mint ++ "-" ++ owner
    getAccount := fun _ =>
      Except.error { name := "ConnectionError", message := "rpc down" }
    signature := "sigC1c" }

/-- Witness for C1 at concrete inputs covering all three outcomes of the
existence check. -/
theorem C1_sendToken_create_iff_not_found_witness :
    Transfer.sendToken C1depsFound ⟨"me"⟩ "you" 7 "mintX" =
      Except.ok
        ([Instruction.tokenTransfer "ata-mintX-me" "ata-mintX-you" "me" 7],
         Transfer.tokenResult C1depsFound ⟨"me"⟩ "you" 7 "mintX") ∧
    Transfer.sendToken C1depsMissing ⟨"me"⟩ "you" 7 "mintX" =
      Except.ok
        ([Instruction.createAssociatedTokenAccount "me" "ata-mintX-you" "you" "mintX",
          Instruction.tokenTransfer "ata-mintX-me" "ata-mintX-you" "me" 7],
         Transfer.tokenResult C1depsMissing ⟨"me"⟩ "you" 7 "mintX") ∧
    Transfer.sendToken C1depsBroken ⟨"me"⟩ "you" 7 "mintX" =
      Except.error { name := "ConnectionError", message := "rpc down" } :=
  ⟨(C1_sendToken_create_iff_not_found C1depsFound ⟨"me"⟩ "you" 7 "mintX").1 rfl,
   (C1_sendToken_create_iff_not_found C1depsMissing ⟨"me"⟩ "you" 7 "mintX").2.1
      { name := "TokenAccountNotFoundError", message := "missing" } rfl rfl,
   (C1_sendToken_create_iff_not_found C1depsBroken ⟨"me"⟩ "you" 7 "mintX").2.2
      { name := "ConnectionError", message := "rpc down" } rfl (by decide)⟩

/-- C4 (confirmed): a scanned stake account is summarized with state
`"delegated"` exactly when its parsed data carries a delegation sub-field
and `"inactive"` otherwise, and — given that the ledger renders
`activationEpoch` as a nonempty decimal string whenever a delegation is
present — the summary's `activationEpoch` is null exactly when the state is
`"inactive"`. -/
theorem C4_stake_account_classification (accounts : List RawStakeAccount)
    (acc : RawStakeAccount) (hmem : acc ∈ accounts)
    (hEpoch : ∀ d, acc.info.stake.bind ParsedStake.delegation = some d →
      d.activationEpoch ≠ "") :
    Staking.summarize acc ∈ Staking.getStakeAccounts accounts ∧
    ((Staking.summarize acc).state = "delegated" ↔
      (acc.info.stake.bind ParsedStake.delegation).isSome) ∧
    ((Staking.summarize acc).state = "delegated" ∨
      (Staking.summarize acc).state = "inactive") ∧
    ((Staking.summarize acc).activationEpoch = none ↔
      (Staking.summarize acc).state = "inactive") := by
  refine ⟨List.mem_map_of_mem _ hmem, ?_, ?_, ?_⟩
  · cases hd : acc.info.stake.bind ParsedStake.delegation with
    | some d => simp [Staking.summarize, hd]
    | none => simp [Staking.summarize, hd]
  · cases hd : acc.info.stake.bind ParsedStake.delegation with
    | some d => simp [Staking.summarize, hd]
    | none => simp [Staking.summarize, hd]
  · cases hd : acc.info.stake.bind ParsedStake.delegation with
    | some d =>
        have hne := hEpoch d hd
        simp [Staking.summarize, hd, jsStringOrNull, hne]
    | none => simp [Staking.summarize, hd, jsStringOrNull]

/-- A delegated parsed stake account (C4 witness input). -/
def C4accDelegated : RawStakeAccount :=
  { pubkey := "stakeAcc1"
    lamports := 2000000000
    info :=
      { stake := some
          { delegation := some
              { voter := "validatorX", activationEpoch := "231" } } } }

/-- An inactive parsed stake account (C4 witness input). -/
def C4accInactive : RawStakeAccount :=
  { pubkey := "stakeAcc2"
    lamports := 3000000000
    info := { stake := none } }

/-- Witness for C4 on one delegated and one inactive concrete account. -/
theorem C4_stake_account_classification_witness :
    ((Staking.summarize C4accDelegated).state = "delegated" ↔
      (C4accDelegated.info.stake.bind ParsedStake.delegation).isSome) ∧
    ((Staking.summarize C4accDelegated).activationEpoch = none ↔
      (Staking.summarize C4accDelegated).state = "inactive") ∧
    ((Staking.summarize C4accInactive).activationEpoch = none ↔
      (Staking.summarize C4accInactive).state = "inactive") ∧
    Staking.summarize C4accDelegated ∈
      Staking.getStakeAccounts [C4accDelegated, C4accInactive] := by
  have h1 := C4_stake_account_classification [C4accDelegated, C4accInactive]
    C4accDelegated (by simp)
    (by
      intro d hd
      have h2 : some ({ voter := "validatorX", activationEpoch := "231" } :
          ParsedDelegation) = some d := hd
      injection h2 with h3
      subst h3
      decide)
  have h2 := C4_stake_account_classification [C4accDelegated, C4accInactive]
    C4accInactive (by simp)
    (by intro d hd; simp [C4accInactive] at hd)
  exact ⟨h1.2.1, h1.2.2.2, h2.2.2.2, h1.1⟩

/-- C10 (confirmed): `getTokenBalance` returns the account's raw base-unit
amount when the lookup succeeds, returns 0 without raising when the lookup
fails with a `TokenAccountNotFoundError`, and re-raises every other lookup
error unchanged. -/
theorem C10_getTokenBalance_not_found_is_zero
    (lookupResult : Except JsError TokenAccount) :
    (∀ account, lookupResult = Except.ok account →
       Wallet.getTokenBalance lookupResult = Except.ok account.amount) ∧
    (∀ e, lookupResult = Except.error e →
       e.name = "TokenAccountNotFoundError" →
       Wallet.getTokenBalance lookupResult = Except.ok 0) ∧
    (∀ e, lookupResult = Except.error e →
       e.name ≠ "TokenAccountNotFoundError" →
       Wallet.getTokenBalance lookupResult = Except.error e) := by
  refine ⟨?_, ?_, ?_⟩
  · intro account h
    simp [Wallet.getTokenBalance, h]
  · intro e h hname
    simp [Wallet.getTokenBalance, h, hname]
  · intro e h hname
    simp [Wallet.getTokenBalance, h, hname]

/-- Witness for C10 at the three concrete lookup outcomes. -/
theorem C10_getTokenBalance_not_found_is_zero_witness :
    Wallet.getTokenBalance (Except.ok { amount := 123456 }) = Except.ok 123456 ∧
    Wallet.getTokenBalance
      (Except.error { name := "TokenAccountNotFoundError", message := "no ata" }) =
      Except.ok 0 ∧
    Wallet.getTokenBalance
      (Except.error { name := "ConnectionError", message := "down" }) =
      Except.error { name := "ConnectionError", message := "down" } :=
  ⟨(C10_getTokenBalance_not_found_is_zero _).1 { amount := 123456 } rfl,
   (C10_getTokenBalance_not_found_is_zero _).2.1
      { name := "TokenAccountNotFoundError", message := "no ata" } rfl rfl,
   (C10_getTokenBalance_not_found_is_zero _).2.2
      { name := "ConnectionError", message := "down" } rfl (by decide)⟩

/-- C8 (confirmed): on a successful quote response, the returned
QuoteRecord's `inputMint` and `outputMint` are the resolved canonical
addresses of the two inputs; and both the table symbols "SOL"/"USDC" and
the corresponding addresses passed directly resolve to the same canonical
addresses. -/
theorem C8_quote_returns_resolved_mints
    (fetchQuote : QuoteRequest → HttpResponse)
    (inputMint outputMint : String) (amount slippageBps : ℕ)
    (hok : (fetchQuote (Swapper.quoteRequest (Swapper.resolveMint inputMint)
        (Swapper.resolveMint outputMint) amount slippageBps)).ok = true) :
    Swapper.getQuote fetchQuote inputMint outputMint amount slippageBps =
      Except.ok
        { inputMint := Swapper.resolveMint inputMint
          outputMint := Swapper.resolveMint outputMint
          inAmount := (fetchQuote (Swapper.quoteRequest
            (Swapper.resolveMint inputMint) (Swapper.resolveMint outputMint)
            amount slippageBps)).quote.inAmount
          outAmount := (fetchQuote (Swapper.quoteRequest
            (Swapper.resolveMint inputMint) (Swapper.resolveMint outputMint)
            amount slippageBps)).quote.outAmount
          priceImpactPct := (fetchQuote (Swapper.quoteRequest
            (Swapper.resolveMint inputMint) (Swapper.resolveMint outputMint)
            amount slippageBps)).quote.priceImpactPct
          raw := (fetchQuote (Swapper.quoteRequest
            (Swapper.resolveMint inputMint) (Swapper.resolveMint outputMint)
            amount slippageBps)).quote } ∧
    Swapper.resolveMint "SOL" = "So11111111111111111111111111111111111111112" ∧
    Swapper.resolveMint "So11111111111111111111111111111111111111112" =
      "So11111111111111111111111111111111111111112" ∧
    Swapper.resolveMint "USDC" = "EPjFWdd5AufqSSqeM2qN1xzybapC8G4wEGGkZwyTDt1v" ∧
    Swapper.resolveMint "EPjFWdd5AufqSSqeM2qN1xzybapC8G4wEGGkZwyTDt1v" =
      "EPjFWdd5AufqSSqeM2qN1xzybapC8G4wEGGkZwyTDt1v" := by
  refine ⟨?_, by decide, by decide, by decide, by decide⟩
  simp [Swapper.getQuote, hok]

/-- A quote endpoint that always answers 200 with a fixed payload
(C8 witness oracle). -/
def C8fetch : QuoteRequest → HttpResponse :=
  fun _ =>
    { status := 200
      text := ""
      quote := { inAmount := 1000000000, outAmount := 150, priceImpactPct := 1 / 100 } }

/-- Witness for C8: quoting 1e9 base units, once by symbols and once by
addresses, yields the same resolved canonical mint pair. -/
theorem C8_quote_returns_resolved_mints_witness :
    Swapper.getQuote C8fetch "SOL" "USDC" 1000000000 50 =
      Except.ok
        { inputMint := "So11111111111111111111111111111111111111112"
          outputMint := "EPjFWdd5AufqSSqeM2qN1xzybapC8G4wEGGkZwyTDt1v"
          inAmount := 1000000000
          outAmount := 150
          priceImpactPct := 1 / 100
          raw := { inAmount := 1000000000, outAmount := 150, priceImpactPct := 1 / 100 } } ∧
    Swapper.getQuote C8fetch "So11111111111111111111111111111111111111112"
        "EPjFWdd5AufqSSqeM2qN1xzybapC8G4wEGGkZwyTDt1v" 1000000000 50 =
      Except.ok
        { inputMint := "So11111111111111111111111111111111111111112"
          outputMint := "EPjFWdd5AufqSSqeM2qN1xzybapC8G4wEGGkZwyTDt1v"
          inAmount := 1000000000
          outAmount := 150
          priceImpactPct := 1 / 100
          raw := { inAmount := 1000000000, outAmount := 150, priceImpactPct := 1 / 100 } } :=
  ⟨(C8_quote_returns_resolved_mints C8fetch "SOL" "USDC" 1000000000 50 rfl).1,
   (C8_quote_returns_resolved_mints C8fetch
      "So11111111111111111111111111111111111111112"
      "EPjFWdd5AufqSSqeM2qN1xzybapC8G4wEGGkZwyTDt1v" 1000000000 50 rfl).1⟩

/-- C7 (confirmed): `getPrice` quotes a fixed-constant input amount —
`10^9` base units when the resolved mint is the native SOL mint, `10^6`
otherwise — against USDC, and divides the quoted output amount by the
fixed constant 1e6; no account metadata enters the computation. -/
theorem C7_getPrice_fixed_decimals (fetchQuote : QuoteRequest → HttpResponse)
    (tokenMint : String) :
    ((Swapper.priceQuoteRequest tokenMint).amount =
       if Swapper.resolveMint tokenMint = TOKENS.SOL then 10 ^ 9 else 10 ^ 6) ∧
    (Swapper.priceQuoteRequest tokenMint).outputMint = TOKENS.USDC ∧
    ((fetchQuote (Swapper.priceQuoteRequest tokenMint)).ok = true →
       Swapper.getPrice fetchQuote tokenMint =
         Except.ok
           ((fetchQuote (Swapper.priceQuoteRequest tokenMint)).quote.outAmount
             / 1000000)) := by
  refine ⟨rfl, rfl, ?_⟩
  intro hok
  have husdc : Swapper.resolveMint "USDC" = TOKENS.USDC := by decide
  have hreq : Swapper.quoteRequest
      (Swapper.resolveMint (Swapper.resolveMint tokenMint))
      (Swapper.resolveMint "USDC")
      (10 ^ (if Swapper.resolveMint tokenMint = TOKENS.SOL then 9 else 6)) 50 =
      Swapper.priceQuoteRequest tokenMint := by
    rw [resolveMint_idem, husdc]
    unfold Swapper.quoteRequest Swapper.priceQuoteRequest
    by_cases hsol : Swapper.resolveMint tokenMint = TOKENS.SOL
    · simp [hsol]
    · simp [hsol]
  simp only [Swapper.getPrice, Swapper.getQuote]
  rw [hreq, hok]
  simp

/-- A quote endpoint that always answers 200 with output amount 42e6
(C7 witness oracle). -/
def C7fetch : QuoteRequest → HttpResponse :=
  fun _ =>
    { status := 200
      text := ""
      quote := { inAmount := 3, outAmount := 42000000, priceImpactPct := 0 } }

/-- Witness for C7: the native mint is priced from a 1e9-unit quote, any
other mint from a 1e6-unit quote, and both divide the output by 1e6. -/
theorem C7_getPrice_fixed_decimals_witness :
    (Swapper.priceQuoteRequest "SOL").amount = 10 ^ 9 ∧
    (Swapper.priceQuoteRequest "BONK").amount = 10 ^ 6 ∧
    Swapper.getPrice C7fetch "SOL" = Except.ok 42 ∧
    Swapper.getPrice C7fetch "BONK" = Except.ok 42 := by
  refine ⟨(C7_getPrice_fixed_decimals C7fetch "SOL").1.trans (by decide),
    (C7_getPrice_fixed_decimals C7fetch "BONK").1.trans (by decide), ?_, ?_⟩
  · have h := (C7_getPrice_fixed_decimals C7fetch "SOL").2.2 rfl
    rw [h]
    norm_num [C7fetch]
  · have h := (C7_getPrice_fixed_decimals C7fetch "BONK").2.2 rfl
    rw [h]
    norm_num [C7fetch]

/-- The parsed payload of the C9 counterexample response (unused on the
error path). -/
def C9quote : QuoteRaw := { inAmount := 0, outAmount := 0, priceImpactPct := 0 }

/-- C9 counterexample: on a concrete 500 response with body
"rate limited", the quote layer raises `Quote failed: rate limited` — a
message that carries the response body text but does not contain the
status code "500", refuting the claim that every error from the quote,
swap-build, and portfolio layers is wrapped with both the status code and
the body text. -/
theorem C9_counterexample_quote_error_lacks_status :
    Swapper.getQuote
        (fun _ => { status := 500, text := "rate limited", quote := C9quote })
        "SOL" "USDC" 1000000000 50 =
      Except.error "Quote failed: rate limited" ∧
    strContains "Quote failed: rate limited" "rate limited" = true ∧
    strContains "Quote failed: rate limited" (toString (500 : ℕ)) = false :=
  ⟨rfl, by decide, by decide⟩
/-- C9 (amended): each HTTP layer raises an error exactly when the response
status is non-2xx and raises nothing on a successful status — in
particular, after a successful swap-build response the swap-build wrapper
raises nothing: the call proceeds and can only fail with the confirmation
layer's `Transaction failed:` error; the AgentDEX client wraps its error
with both the status code and the response body text, while the
swap-module quote and swap-build wrappers embed only the response body
text. -/
theorem C9_http_error_wrapping_amended :
    (∀ (fetchQuote : QuoteRequest → HttpResponse) (i o : String) (a s : ℕ),
       ((fetchQuote (Swapper.quoteRequest (Swapper.resolveMint i)
           (Swapper.resolveMint o) a s)).ok = false →
         Swapper.getQuote fetchQuote i o a s =
           Except.error ("Quote failed: " ++
             (fetchQuote (Swapper.quoteRequest (Swapper.resolveMint i)
               (Swapper.resolveMint o) a s)).text)) ∧
       ((fetchQuote (Swapper.quoteRequest (Swapper.resolveMint i)
           (Swapper.resolveMint o) a s)).ok = true →
         (Swapper.getQuote fetchQuote i o a s).isOk = true)) ∧
    (∀ (deps : SwapDeps) (wallet : WalletH) (i o : String) (a s : ℕ)
       (quote : QuoteRecord),
       Swapper.getQuote deps.fetchQuote i o a s = Except.ok quote →
       (deps.fetchSwap
         (SwapBuildRequest.mk quote.raw wallet.publicKey true)).ok = false →
       Swapper.swap deps wallet i o a s =
         Except.error ("Swap transaction failed: " ++
           (deps.fetchSwap
             (SwapBuildRequest.mk quote.raw wallet.publicKey true)).text)) ∧
    (∀ (deps : SwapDeps) (wallet : WalletH) (i o : String) (a s : ℕ)
       (quote : QuoteRecord),
       Swapper.getQuote deps.fetchQuote i o a s = Except.ok quote →
       (deps.fetchSwap
         (SwapBuildRequest.mk quote.raw wallet.publicKey true)).ok = true →
       (deps.confirmation.err = none →
          Swapper.swap deps wallet i o a s =
            Except.ok
              { signature := deps.sendSignature
                inputMint := quote.inputMint
                outputMint := quote.outputMint
                inAmount := quote.inAmount
                outAmount := quote.outAmount
                explorerUrl := "https://solscan.io/tx/" ++ deps.sendSignature }) ∧
       (∀ err, deps.confirmation.err = some err →
          Swapper.swap deps wallet i o a s =
            Except.error ("Transaction failed: " ++ err))) ∧
    (∀ (method path : String) (res : AgentHttpResponse),
       (res.ok = false →
         AgentDEXClient.request method path res =
           Except.error ("AgentDEX API " ++ method ++ " " ++ path ++
             " failed (" ++ toString res.status ++ "): " ++ res.text)) ∧
       (res.ok = true →
         AgentDEXClient.request method path res = Except.ok res.json)) := by
  refine ⟨?_, ?_, ?_, ?_⟩
  · intro fetchQuote i o a s
    constructor
    · intro hko
      simp [Swapper.getQuote, hko]
    · intro hok
      simp [Swapper.getQuote, hok, Except.isOk, Except.toBool]
  · intro deps wallet i o a s quote hq hko
    simp [Swapper.swap, hq, hko]
  · intro deps wallet i o a s quote hq hok
    constructor
    · intro hconf
      simp [Swapper.swap, hq, hok, hconf]
    · intro err hconf
      simp [Swapper.swap, hq, hok, hconf]
  · intro method path res
    constructor
    · intro hko
      simp [AgentDEXClient.request, hko]
    · intro hok
      simp [AgentDEXClient.request, hok]

/-- A failing quote endpoint (C9 witness oracle). -/
def C9fetchBad : QuoteRequest → HttpResponse :=
  fun _ => { status := 500, text := "boom", quote := C9quote }

/-- Swap dependencies whose quote succeeds but whose swap-build endpoint
answers 502 (C9 witness oracle). -/
def C9swapDeps : SwapDeps :=
  { fetchQuote := C8fetch
    fetchSwap := fun _ => { status := 502, text := "bad gateway", swapTransaction := "" }
    sendSignature := "sigC9"
    confirmation := { err := none } }

/-- Swap dependencies whose quote and swap-build both answer 200 and whose
confirmation reports no error (C9 witness oracle). -/
def C9swapDepsOk : SwapDeps :=
  { fetchQuote := C8fetch
    fetchSwap := fun _ => { status := 200, text := "", swapTransaction := "dGVzdA==" }
    sendSignature := "sigC9ok"
    confirmation := { err := none } }

/-- Swap dependencies whose quote and swap-build both answer 200 but whose
confirmation reports an on-chain error (C9 witness oracle). -/
def C9swapDepsConfErr : SwapDeps :=
  { fetchQuote := C8fetch
    fetchSwap := fun _ => { status := 200, text := "", swapTransaction := "dGVzdA==" }
    sendSignature := "sigC9err"
    confirmation := { err := some "InstructionError" } }

/-- The QuoteRecord `getQuote C8fetch "SOL" "USDC" 5 50` returns
(C9 witness value). -/
def C9quoteRecord : QuoteRecord :=
  { inputMint := "So11111111111111111111111111111111111111112"
    outputMint := "EPjFWdd5AufqSSqeM2qN1xzybapC8G4wEGGkZwyTDt1v"
    inAmount := 1000000000
    outAmount := 150
    priceImpactPct := 1 / 100
    raw := { inAmount := 1000000000, outAmount := 150, priceImpactPct := 1 / 100 } }

/-- Witness for C9 (amended) at concrete responses: quote failure, quote
success, swap-build failure, swap-build success with and without a
confirmation error, and the AgentDEX wrapper in both outcomes. -/
theorem C9_http_error_wrapping_amended_witness :
    Swapper.getQuote C9fetchBad "SOL" "USDC" 5 50 =
      Except.error "Quote failed: boom" ∧
    (Swapper.getQuote C8fetch "SOL" "USDC" 5 50).isOk = true ∧
    Swapper.swap C9swapDeps ⟨"me"⟩ "SOL" "USDC" 5 50 =
      Except.error "Swap transaction failed: bad gateway" ∧
    Swapper.swap C9swapDepsOk ⟨"me"⟩ "SOL" "USDC" 5 50 =
      Except.ok
        { signature := "sigC9ok"
          inputMint := "So11111111111111111111111111111111111111112"
          outputMint := "EPjFWdd5AufqSSqeM2qN1xzybapC8G4wEGGkZwyTDt1v"
          inAmount := 1000000000
          outAmount := 150
          explorerUrl := "https://solscan.io/tx/sigC9ok" } ∧
    Swapper.swap C9swapDepsConfErr ⟨"me"⟩ "SOL" "USDC" 5 50 =
      Except.error "Transaction failed: InstructionError" ∧
    AgentDEXClient.request "GET" "/api/v1/prices"
        { status := 404, text := "not found", json := "" } =
      Except.error "AgentDEX API GET /api/v1/prices failed (404): not found" ∧
    AgentDEXClient.request "GET" "/api/v1/prices"
        { status := 200, text := "", json := "payload" } =
      Except.ok "payload" := by
  refine ⟨?_, ?_, ?_, ?_, ?_, ?_, ?_⟩
  · exact (C9_http_error_wrapping_amended.1 C9fetchBad "SOL" "USDC" 5 50).1 rfl
  · exact (C9_http_error_wrapping_amended.1 C8fetch "SOL" "USDC" 5 50).2 rfl
  · exact C9_http_error_wrapping_amended.2.1 C9swapDeps ⟨"me"⟩ "SOL" "USDC" 5 50
      C9quoteRecord rfl rfl
  · exact (C9_http_error_wrapping_amended.2.2.1 C9swapDepsOk ⟨"me"⟩ "SOL" "USDC"
      5 50 C9quoteRecord rfl rfl).1 rfl
  · exact (C9_http_error_wrapping_amended.2.2.1 C9swapDepsConfErr ⟨"me"⟩ "SOL"
      "USDC" 5 50 C9quoteRecord rfl rfl).2 "InstructionError" rfl
  · exact (C9_http_error_wrapping_amended.2.2.2 "GET" "/api/v1/prices"
      { status := 404, text := "not found", json := "" }).1 rfl
  · exact (C9_http_error_wrapping_amended.2.2.2 "GET" "/api/v1/prices"
      { status := 200, text := "", json := "payload" }).2 rfl
